import Mathlib

/-!
Shallow embedding of the bias/fairness detection engine of
`src/backend/src/database/queries/bias_detection.py` (class
`BiasDetectionAnalyzer`), with theorems checking the natural-language
specification against it.

Numeric modelling: Python floats are modelled as rationals (every division
the engine performs is on counts or on caller-supplied scores, and no claim
depends on rounding).  Pandas dataframes are modelled as lists of rows of
the joined analysis table; SQL tables as lists of records.  Library-level
statistical routines that are irrational-valued (scipy.stats.pearsonr) are
taken as an explicit function parameter; everything else is embedded.
-/

namespace BiasDetection

/-- One row of the joined analysis table that `analyze_recommendation_bias`
loads (lines 60-77 of bias_detection.py): a resource recommendation joined
with the issuing user's demographic and socioeconomic attributes. -/
structure Row where
  resource_type : String
  age_group : String
  gender_identity : String
  race_ethnicity : String
  confidence_score : ℚ
  engagement_score : ℚ
  status : String
  income_level : String
deriving Repr, DecidableEq

/-- Threshold set in `BiasDetectionAnalyzer.__init__`: `self.significance_level = 0.05`. -/
def significance_level : ℚ := 1/20

/-- Threshold set in `BiasDetectionAnalyzer.__init__`: `self.fairness_threshold = 0.1`. -/
def fairness_threshold : ℚ := 1/10

/-- Maximum of a list of rationals, as `pandas.Series.max` computes it on the
non-null entries; 0 on the empty list (pandas would give NaN there, and the
engine only takes maxima of nonempty series, so the default is never read
by any theorem below). -/
def qMax : List ℚ → ℚ
  | [] => 0
  | x :: xs => xs.foldl max x

/-- Minimum of a list of rationals, as `pandas.Series.min`; 0 on the empty list. -/
def qMin : List ℚ → ℚ
  | [] => 0
  | x :: xs => xs.foldl min x

/-- The distinct values of one column of the table, in order of first
appearance (the index of a pandas `groupby` / `value_counts`; the engine
never depends on the ordering of that index). -/
def colGroups (df : List Row) (col : Row → String) : List String :=
  (df.map col).dedup

/-- Number of rows whose `col` value is `g`: one entry of `groupby(col).size()`. -/
def colCount (df : List Row) (col : Row → String) (g : String) : ℕ :=
  (df.filter (fun r => col r = g)).length

/-- One `demographic_parity` block of `_analyze_resource_type_bias`
(lines 134-158): the per-group rates dict, `max_difference` and `biased`. -/
structure ParityEntry where
  rates : List (String × ℚ)
  max_difference : ℚ
  biased : Bool
deriving Repr, DecidableEq

/-- The per-group recommendation rates `df.groupby(col).size() / len(df)`. -/
def groupRates (df : List Row) (col : Row → String) : List (String × ℚ) :=
  (colGroups df col).map (fun g => (g, (colCount df col g : ℚ) / (df.length : ℚ)))

/-- Demographic-parity computation of `_analyze_resource_type_bias`
(done identically for race_ethnicity, income_level and gender_identity):
`rates = groupby(col).size() / len(df)`,
`max_difference = rates.max() - rates.min()`,
`biased = (rates.max() - rates.min()) > self.fairness_threshold`. -/
def demographicParity (df : List Row) (col : Row → String) : ParityEntry :=
  let rates := groupRates df col
  let vals := rates.map Prod.snd
  { rates := rates
    max_difference := qMax vals - qMin vals
    biased := decide (fairness_threshold < qMax vals - qMin vals) }

/-- Ratio computation of `_calculate_fairness_metrics` line 232:
`ratio = race_therapy_rate / white_therapy_rate if white_therapy_rate > 0 else 0`. -/
def disparateImpactRatio (rate_a rate_b : ℚ) : ℚ :=
  if 0 < rate_b then rate_a / rate_b else 0

/-- The 80% rule of `_calculate_fairness_metrics` line 237:
`passes_80_percent_rule = ratio >= 0.8`. -/
def passes80PercentRule (r : ℚ) : Bool :=
  decide ((4 : ℚ)/5 ≤ r)

/-- Per-race therapy recommendation rate of `_calculate_fairness_metrics`
lines 226 and 231: `len(therapy_recs[therapy_recs['race_ethnicity'] == race])
/ len(df[df['race_ethnicity'] == race])`, 0 when the race has no rows. -/
def groupTherapyRate (df : List Row) (race : String) : ℚ :=
  let grp := df.filter (fun r => r.race_ethnicity = race)
  if 0 < grp.length then
    ((grp.filter (fun r => r.resource_type = "therapy")).length : ℚ) / (grp.length : ℚ)
  else 0

/-- One entry of the `disparate_impact` dict (lines 233-238). -/
structure ImpactEntry where
  therapy_rate : ℚ
  white_therapy_rate : ℚ
  ratio : ℚ
  passes_80_percent_rule : Bool
deriving Repr, DecidableEq

/-- The `disparate_impact` metric of `_calculate_fairness_metrics`
(lines 223-240): computed only when the window holds at least one therapy
recommendation; one entry per observed race other than the hardcoded
reference race `'white'`. -/
def disparateImpact (df : List Row) : Option (List (String × ImpactEntry)) :=
  if 0 < (df.filter (fun r => r.resource_type = "therapy")).length then
    let wrate := groupTherapyRate df "white"
    some ((((df.map (fun r => r.race_ethnicity)).dedup).filter (fun g => g ≠ "white")).map
      (fun race =>
        let rrate := groupTherapyRate df race
        let rat := disparateImpactRatio rrate wrate
        (race, { therapy_rate := rrate
                 white_therapy_rate := wrate
                 ratio := rat
                 passes_80_percent_rule := passes80PercentRule rat })))
  else none

/-- The success statuses of the equalized-odds analysis (line 162):
`df['status'].isin(['engaged', 'completed'])`. -/
def isSuccess (r : Row) : Bool :=
  r.status = "engaged" ∨ r.status = "completed"

/-- Number of successful rows of race `g`: one entry of
`successful_outcomes.groupby('race_ethnicity').size()`. -/
def successCount (df : List Row) (g : String) : ℕ :=
  ((df.filter (fun r => isSuccess r)).filter (fun r => r.race_ethnicity = g)).length

/-- Shorthand for the race column. -/
def raceCol : Row → String := fun r => r.race_ethnicity

/-- The `equalized_odds` block for race_ethnicity (lines 166-170). -/
structure EqOddsEntry where
  success_rates : List (String × ℚ)
  max_difference : ℚ
  biased : Bool
deriving Repr, DecidableEq

/-- The success rates over which pandas takes `max()`/`min()` in the
equalized-odds block: `success_by_race` is the index-aligned division
`successful.groupby(race).size() / df.groupby(race).size()`, which is NaN
for a race with no successful rows, and `Series.max`/`min` skip NaN -
so only races with at least one success enter the comparison. -/
def eqOddsComparedRates (df : List Row) : List ℚ :=
  ((colGroups df raceCol).filter (fun g => 0 < successCount df g)).map
    (fun g => (successCount df g : ℚ) / (colCount df raceCol g : ℚ))

/-- Equalized-odds analysis of `_analyze_resource_type_bias` (lines 160-170):
computed only when at least one row is successful.  The `success_rates`
dict is `success_by_race.fillna(0).to_dict()`, i.e. every observed race
mapped to success_count/group_total (0 for races without successes);
`max_difference` and `biased` use the NaN-skipping max/min (see
`eqOddsComparedRates`) and are guarded by `len(success_by_race) > 1`. -/
def equalizedOdds (df : List Row) : Option EqOddsEntry :=
  let successful := df.filter (fun r => isSuccess r)
  if successful.length = 0 then none
  else
    let gs := colGroups df raceCol
    let vals := eqOddsComparedRates df
    some { success_rates :=
             gs.map (fun g => (g, (successCount df g : ℚ) / (colCount df raceCol g : ℚ)))
           max_difference := if 1 < gs.length then qMax vals - qMin vals else 0
           biased := decide (1 < gs.length ∧ fairness_threshold < qMax vals - qMin vals) }

/-- Chi-square statistic formula `sum((observed - expected)^2 / expected)`. -/
def chi2Stat (obs expc : List ℚ) : ℚ :=
  (List.zipWith (fun o e => (o - e) ^ 2 / e) obs expc).sum

/-- Expected frequencies `scipy.stats.chi2_contingency` derives from the
marginals of the 1 x k table `race_counts.values.reshape(1, -1)` (line 127):
cell (0, j) expects rowsum * colsum_j / grand = sum * counts_j / sum. -/
def contingencyExpected (counts : List ℚ) : List ℚ :=
  counts.map (fun o => counts.sum * o / counts.sum)

/-- `scipy.stats.chi2_contingency` applied to the 1 x k table of line 127.
The degrees of freedom are (1-1)*(k-1) = 0, and scipy's degenerate dof = 0
branch returns statistic 0.0 and p-value 1.0 without consulting the table
(consistently with the formula: the expected table equals the observed one,
see `chi2Stat_contingencyExpected`).  The zero-expected-frequency guard of
scipy cannot fire here because `value_counts` only produces positive
counts. -/
def chi2_contingency_1xk (counts : List ℚ) : ℚ × ℚ :=
  (chi2Stat counts (contingencyExpected counts), 1)

/-- For a table with positive total the marginal-derived expected
frequencies of the 1 x k table are the observed counts themselves. -/
lemma contingencyExpected_eq (counts : List ℚ) (h : counts.sum ≠ 0) :
    contingencyExpected counts = counts := by
  unfold contingencyExpected
  have : ∀ o ∈ counts, counts.sum * o / counts.sum = o := fun o _ => by
    rw [mul_comm, mul_div_assoc, div_self h, mul_one]
  rw [List.map_congr_left this]
  exact List.map_id' counts

/-- The chi-square statistic of any table against itself is 0: the dof = 0
shortcut of scipy agrees with the formula. -/
lemma chi2Stat_contingencyExpected (counts : List ℚ) (h : counts.sum ≠ 0) :
    chi2Stat counts (contingencyExpected counts) = 0 := by
  rw [contingencyExpected_eq counts h]
  unfold chi2Stat
  rw [List.zipWith_same]
  simp

/-- The `race_chi2` entry of `statistical_tests` (lines 128-132). -/
structure ChiEntry where
  statistic : ℚ
  p_value : ℚ
  significant : Bool
deriving Repr, DecidableEq

/-- Smallest confidence score of the table (`pd.cut` derives its bin edges
from the observed data range, not from [0, 1]). -/
def confMin (df : List Row) : ℚ :=
  qMin (df.map (fun r => r.confidence_score))

/-- Largest confidence score of the table. -/
def confMax (df : List Row) : ℚ :=
  qMax (df.map (fun r => r.confidence_score))

/-- Bin index `pd.cut(scores, bins=5)` (line 176) assigns to a score `x`:
five equal-width right-closed intervals (mn + i*w, mn + (i+1)*w] with
w = (mx - mn)/5 spanning the observed range [mn, mx], the left edge
extended slightly so the minimum itself lands in bin 0. -/
def binIdx (mn mx x : ℚ) : ℕ :=
  if mx ≤ mn then 0
  else (min 4 (max 0 (⌈(x - mn) * 5 / (mx - mn)⌉ - 1))).toNat

/-- Mean of a list of rationals (`pandas .agg('mean')`). -/
def qMean (l : List ℚ) : ℚ :=
  l.sum / (l.length : ℚ)

/-- The rows of the table falling in confidence bin `i`. -/
def binRows (df : List Row) (i : ℕ) : List Row :=
  df.filter (fun r => binIdx (confMin df) (confMax df) r.confidence_score = i)

/-- The `calibration_data` table of lines 176-180: per nonempty confidence
bin, the mean confidence score and the mean engagement score (empty bins
produce NaN means and are removed by `.dropna()`). -/
def calibrationBins (df : List Row) : List (ℚ × ℚ) :=
  (List.range 5).filterMap (fun i =>
    let rows := binRows df i
    if rows.length = 0 then none
    else some (qMean (rows.map (fun r => r.confidence_score)),
               qMean (rows.map (fun r => r.engagement_score))))

/-- The mean confidence per nonempty bin (first argument to `stats.pearsonr`). -/
def confMeans (df : List Row) : List ℚ :=
  (calibrationBins df).map Prod.fst

/-- The mean engagement per nonempty bin (second argument to `stats.pearsonr`). -/
def engMeans (df : List Row) : List ℚ :=
  (calibrationBins df).map Prod.snd

/-- The `calibration` block of `_analyze_resource_type_bias`. -/
structure CalibEntry where
  correlation : ℚ
  p_value : ℚ
  well_calibrated : Bool
deriving Repr, DecidableEq

/-- Calibration analysis of `_analyze_resource_type_bias` (lines 172-189),
parameterised by the library routine `scipy.stats.pearsonr` (irrational in
general, so kept abstract): run only when `len(df) > 20`; Pearson
correlation between the per-bin means only when more than 2 bins are
nonempty; `well_calibrated = correlation > 0.5 and p_val < 0.05`.  In both
skip cases the source leaves the `calibration` dict empty (`none` here): no
`insufficient_data` marker is written. -/
def calibrationAnalysis (pearson : List ℚ → List ℚ → ℚ × ℚ) (df : List Row) :
    Option CalibEntry :=
  if 20 < df.length then
    if 2 < (calibrationBins df).length then
      let cp := pearson (confMeans df) (engMeans df)
      some { correlation := cp.1
             p_value := cp.2
             well_calibrated := decide (1/2 < cp.1 ∧ cp.2 < significance_level) }
    else none
  else none

/-- The per-resource-type result dict of `_analyze_resource_type_bias`
(lines 107-191).  The three demographic-parity blocks, the race chi-square
entry, the race equalized-odds block and the calibration block. -/
structure TypeBias where
  resource_type : String
  total_count : ℕ
  parity_race : ParityEntry
  parity_income : ParityEntry
  parity_gender : ParityEntry
  race_chi2 : Option ChiEntry
  equalized_odds_race : Option EqOddsEntry
  calibration : Option CalibEntry
deriving Repr, DecidableEq

/-- `_analyze_resource_type_bias(type_df, resource_type)`. -/
def analyze_resource_type_bias (pearson : List ℚ → List ℚ → ℚ × ℚ)
    (df : List Row) (rtype : String) : TypeBias :=
  let gs := colGroups df raceCol
  { resource_type := rtype
    total_count := df.length
    parity_race := demographicParity df raceCol
    parity_income := demographicParity df (fun r => r.income_level)
    parity_gender := demographicParity df (fun r => r.gender_identity)
    race_chi2 :=
      if 1 < gs.length then
        let sp := chi2_contingency_1xk (gs.map (fun g => (colCount df raceCol g : ℚ)))
        some { statistic := sp.1
               p_value := sp.2
               significant := decide (sp.2 < significance_level) }
      else none
    equalized_odds_race := equalizedOdds df
    calibration := calibrationAnalysis pearson df }

/-- One entry of `representation_parity` (lines 209-219). -/
structure RepEntry where
  population_rate : ℚ
  recommendation_rate : ℚ
  parity_ratio : ℚ
  underrepresented : Bool
deriving Repr, DecidableEq

/-- `representation_parity` of `_calculate_fairness_metrics` (lines 201-221):
each race of the full user population compared between its population share
and its share of the recommendations of the window. -/
def representationParity (popCounts : List (String × ℕ)) (df : List Row) :
    List (String × RepEntry) :=
  let popTotal : ℚ := ((popCounts.map Prod.snd).sum : ℚ)
  popCounts.map (fun rc =>
    let pop_rate : ℚ := (rc.2 : ℚ) / popTotal
    let rec_rate : ℚ := ((df.filter (fun r => r.race_ethnicity = rc.1)).length : ℚ) /
      (df.length : ℚ)
    (rc.1, { population_rate := pop_rate
             recommendation_rate := rec_rate
             parity_ratio := if 0 < pop_rate then rec_rate / pop_rate else 0
             underrepresented :=
               if 0 < pop_rate then decide (rec_rate / pop_rate < 4/5) else false }))

/-- The `fairness_metrics` dict of `_calculate_fairness_metrics`.
`popCounts` stands for the population query of lines 201-206
(`db.query(User.race_ethnicity, count()).group_by(...)`). -/
structure FairnessMetrics where
  representation_parity : List (String × RepEntry)
  disparate_impact : Option (List (String × ImpactEntry))
deriving Repr, DecidableEq

/-- `_calculate_fairness_metrics(df)`. -/
def calculate_fairness_metrics (popCounts : List (String × ℕ)) (df : List Row) :
    FairnessMetrics :=
  { representation_parity := representationParity popCounts df
    disparate_impact := disparateImpact df }

/-- Result of `analyze_recommendation_bias` (lines 79-105): the empty-data
marker dict `{'error': ...}` of line 80, or the populated results dict.
The `demographic_patterns` and `recommendations` entries of the source's
dict are derived presentation views (their standard deviations are
irrational) referenced by no claim and are not carried here. -/
inductive AnalysisResult where
  | error (msg : String)
  | ok (analysis_period_days : ℤ) (total_recommendations : ℕ)
      (bias_tests : List (String × TypeBias)) (fairness_metrics : FairnessMetrics)
deriving Repr, DecidableEq

/-- `analyze_recommendation_bias(days_back)` on the loaded window `df`: no
validation of `days_back` is performed anywhere in the method; an empty
window returns the error marker of line 80; otherwise one
`_analyze_resource_type_bias` per observed resource type, plus the
fairness metrics. -/
def analyze_recommendation_bias (pearson : List ℚ → List ℚ → ℚ × ℚ)
    (popCounts : List (String × ℕ)) (days_back : ℤ) (df : List Row) : AnalysisResult :=
  if df.isEmpty then .error "No recommendations found in the specified time period"
  else
    .ok days_back df.length
      (((df.map (fun r => r.resource_type)).dedup).map (fun t =>
        (t, analyze_resource_type_bias pearson (df.filter (fun r => r.resource_type = t)) t)))
      (calculate_fairness_metrics popCounts df)

/-- The `total_recommendations` entry of the result, when present. -/
def AnalysisResult.totalRecommendations? : AnalysisResult → Option ℕ
  | .error _ => none
  | .ok _ n _ _ => some n

/-- The `analysis_period_days` entry of the result, when present. -/
def AnalysisResult.periodDays? : AnalysisResult → Option ℤ
  | .error _ => none
  | .ok d _ _ _ => some d

/-- Whether the result is the populated dict rather than the error marker. -/
def AnalysisResult.isOk : AnalysisResult → Bool
  | .error _ => false
  | .ok _ _ _ _ => true

/-- A `User` record as `detect_algorithmic_bias_realtime` reads it. -/
structure DbUser where
  pseudonym_id : String
  race_ethnicity : String
  age_group : String
deriving Repr, DecidableEq

/-- A `SocialDeterminants` record. -/
structure DbSdoh where
  user_pseudonym_id : String
  income_level : String
deriving Repr, DecidableEq

/-- A `ResourceRecommendation` record. -/
structure DbRec where
  user_pseudonym_id : String
  resource_type : String
  confidence_score : ℚ
  status : String
deriving Repr, DecidableEq

/-- The database state the real-time scorer queries. -/
structure Db where
  users : List DbUser
  sdoh : List DbSdoh
  recs : List DbRec
deriving Repr, DecidableEq

/-- The join `User x SocialDeterminants` on matching pseudonym id
(lines 425-427 and 449-454). -/
def userJoin (db : Db) : List (DbUser × DbSdoh) :=
  db.users.flatMap (fun u =>
    (db.sdoh.filter (fun s => s.user_pseudonym_id = u.pseudonym_id)).map (fun s => (u, s)))

/-- The `.filter(User.pseudonym_id == user_id).first()` lookup of
lines 425-427. -/
def lookupUser (db : Db) (uid : String) : Option (DbUser × DbSdoh) :=
  ((userJoin db).filter (fun p => p.1.pseudonym_id = uid)).head?

/-- The join `ResourceRecommendation x User x SocialDeterminants` of
lines 439-442. -/
def recJoin (db : Db) : List (DbRec × DbUser × DbSdoh) :=
  db.recs.flatMap (fun r =>
    ((userJoin db).filter (fun p => p.1.pseudonym_id = r.user_pseudonym_id)).map
      (fun p => (r, p)))

/-- `similar_users` of lines 439-447: despite its name, a count of therapy
RECOMMENDATION rows whose issuing user shares the current user's
(race_ethnicity, income_level) cohort. -/
def similarTherapyCount (db : Db) (u : DbUser) (s : DbSdoh) : ℕ :=
  ((recJoin db).filter (fun t =>
    t.2.1.race_ethnicity = u.race_ethnicity ∧
    t.2.2.income_level = s.income_level ∧
    t.1.resource_type = "therapy")).length

/-- `total_similar` of lines 449-454: the count of USERS in the
(race_ethnicity, income_level) cohort. -/
def cohortSize (db : Db) (u : DbUser) (s : DbSdoh) : ℕ :=
  ((userJoin db).filter (fun p =>
    p.1.race_ethnicity = u.race_ethnicity ∧ p.2.income_level = s.income_level)).length

/-- `demographic_therapy_rate = similar_users / total_similar` (line 457):
a recommendation count divided by a user count. -/
def demographicTherapyRate (db : Db) (u : DbUser) (s : DbSdoh) : ℚ :=
  (similarTherapyCount db u s : ℚ) / (cohortSize db u s : ℚ)

/-- Number of therapy recommendation rows (lines 460-462). -/
def therapyRecCount (db : Db) : ℕ :=
  (db.recs.filter (fun r => r.resource_type = "therapy")).length

/-- `overall_therapy_rate` of lines 460-462: therapy recommendations over
all recommendations. -/
def overallTherapyRate (db : Db) : ℚ :=
  (therapyRecCount db : ℚ) / (db.recs.length : ℚ)

/-- The therapy branch of `detect_algorithmic_bias_realtime` (lines 437-472),
entered when the scored recommendation has `resource_type == 'therapy'`.
Outer `none` models the ZeroDivisionError Python raises computing
`overall_therapy_rate` when the recommendation table is empty; the inner
option is the `therapy_underrepresentation` indicator when one is emitted.
A zero cohort skips the whole check (`if total_similar > 0`), performing no
division. -/
def therapyIndicator (db : Db) (u : DbUser) (s : DbSdoh) :
    Option (Option (String × ℚ)) :=
  if 0 < cohortSize db u s then
    if db.recs.length = 0 then none
    else
      let rate_ratio :=
        if 0 < overallTherapyRate db then
          demographicTherapyRate db u s / overallTherapyRate db
        else 0
      some (if rate_ratio < 4/5 then
              some ("therapy_underrepresentation", 1 - rate_ratio)
            else none)
  else some none

/-- The recommendations within +-0.1 confidence of the scored one
(`confidence_score.between(confidence - 0.1, confidence + 0.1)`,
lines 478-485; SQL BETWEEN is inclusive). -/
def confidenceBand (db : Db) (conf : ℚ) : List DbRec :=
  db.recs.filter (fun r =>
    conf - 1/10 ≤ r.confidence_score ∧ r.confidence_score ≤ conf + 1/10)

/-- The calibration branch of `detect_algorithmic_bias_realtime`
(lines 474-497): entered when `confidence > 0`; needs more than 10 banded
samples; emits `poor_calibration` when the absolute calibration error
exceeds 0.2. -/
def calibrationIndicator (db : Db) (conf : ℚ) : Option (String × ℚ) :=
  if 0 < conf then
    let band := confidenceBand db conf
    if 10 < band.length then
      let actual : ℚ :=
        ((band.filter (fun r => r.status = "engaged" ∨ r.status = "completed")).length : ℚ) /
          (band.length : ℚ)
      if 1/5 < |conf - actual| then some ("poor_calibration", |conf - actual|)
      else none
    else none
  else none

/-- Result dict of `detect_algorithmic_bias_realtime`: the
`{'error': 'User not found'}` marker, or the populated dict (the echoed
`user_demographics` entry carries no analysis content and is not modelled). -/
inductive RTResult where
  | err (msg : String)
  | ok (bias_indicators : List (String × ℚ)) (bias_detected : Bool) (max_severity : ℚ)
deriving Repr, DecidableEq

/-- `max([ind['severity'] for ind in bias_indicators.values()]) if
bias_indicators else 0` (line 507). -/
def maxSeverity (inds : List (String × ℚ)) : ℚ :=
  qMax (inds.map Prod.snd)

/-- The result assembly of lines 499-508: `bias_detected =
len(bias_indicators) > 0`, `max_severity` the largest emitted severity. -/
def assembleResult (inds : List (String × ℚ)) : RTResult :=
  .ok inds (decide (0 < inds.length)) (maxSeverity inds)

/-- `detect_algorithmic_bias_realtime(user_id, recommendation_data)` with
`rtype = recommendation_data.get('resource_type')` and
`conf = recommendation_data.get('confidence_score', 0)`.  Outer `none`
models the ZeroDivisionError of the therapy branch (see
`therapyIndicator`); an unknown user returns the error marker of line 430
before any cohort or calibration computation. -/
def detect_algorithmic_bias_realtime (db : Db) (uid : String) (rtype : String)
    (conf : ℚ) : Option RTResult :=
  match lookupUser db uid with
  | none => some (.err "User not found")
  | some (u, s) =>
    let ther := if rtype = "therapy" then therapyIndicator db u s else some none
    match ther with
    | none => none
    | some t => some (assembleResult (t.toList ++ (calibrationIndicator db conf).toList))

/-! Helper lemmas about the pandas-style maxima and minima. -/

lemma le_foldl_max_init (xs : List ℚ) (a : ℚ) : a ≤ xs.foldl max a := by
  induction xs generalizing a with
  | nil => exact le_refl a
  | cons y ys ih => exact le_trans (le_max_left a y) (ih (max a y))

lemma le_foldl_max_mem {xs : List ℚ} {x : ℚ} (a : ℚ) (hx : x ∈ xs) :
    x ≤ xs.foldl max a := by
  induction xs generalizing a with
  | nil => cases hx
  | cons y ys ih =>
    rw [List.foldl_cons]
    rcases List.mem_cons.1 hx with h | h
    · subst h
      exact le_trans (le_max_right a x) (le_foldl_max_init ys (max a x))
    · exact ih (max a y) h

lemma foldl_max_mem (xs : List ℚ) (a : ℚ) :
    xs.foldl max a = a ∨ xs.foldl max a ∈ xs := by
  induction xs generalizing a with
  | nil => exact Or.inl rfl
  | cons y ys ih =>
    rw [List.foldl_cons]
    rcases ih (max a y) with h | h
    · rcases max_choice a y with hh | hh
      · exact Or.inl (h.trans hh)
      · exact Or.inr (by rw [h, hh]; exact List.mem_cons_self y ys)
    · exact Or.inr (List.mem_cons_of_mem y h)

lemma foldl_min_le_init (xs : List ℚ) (a : ℚ) : xs.foldl min a ≤ a := by
  induction xs generalizing a with
  | nil => exact le_refl a
  | cons y ys ih => exact le_trans (ih (min a y)) (min_le_left a y)

lemma foldl_min_le_mem {xs : List ℚ} {x : ℚ} (a : ℚ) (hx : x ∈ xs) :
    xs.foldl min a ≤ x := by
  induction xs generalizing a with
  | nil => cases hx
  | cons y ys ih =>
    rw [List.foldl_cons]
    rcases List.mem_cons.1 hx with h | h
    · subst h
      exact le_trans (foldl_min_le_init ys (min a x)) (min_le_right a x)
    · exact ih (min a y) h

lemma foldl_min_mem (xs : List ℚ) (a : ℚ) :
    xs.foldl min a = a ∨ xs.foldl min a ∈ xs := by
  induction xs generalizing a with
  | nil => exact Or.inl rfl
  | cons y ys ih =>
    rw [List.foldl_cons]
    rcases ih (min a y) with h | h
    · rcases min_choice a y with hh | hh
      · exact Or.inl (h.trans hh)
      · exact Or.inr (by rw [h, hh]; exact List.mem_cons_self y ys)
    · exact Or.inr (List.mem_cons_of_mem y h)

lemma qMax_mem {l : List ℚ} (h : l ≠ []) : qMax l ∈ l := by
  cases l with
  | nil => exact absurd rfl h
  | cons x xs =>
    show xs.foldl max x ∈ x :: xs
    rcases foldl_max_mem xs x with hh | hh
    · rw [hh]; exact List.mem_cons_self x xs
    · exact List.mem_cons_of_mem x hh

lemma le_qMax {l : List ℚ} {x : ℚ} (hx : x ∈ l) : x ≤ qMax l := by
  cases l with
  | nil => cases hx
  | cons y ys =>
    show x ≤ ys.foldl max y
    rcases List.mem_cons.1 hx with h | h
    · exact h ▸ le_foldl_max_init ys y
    · exact le_foldl_max_mem y h

lemma qMin_mem {l : List ℚ} (h : l ≠ []) : qMin l ∈ l := by
  cases l with
  | nil => exact absurd rfl h
  | cons x xs =>
    show xs.foldl min x ∈ x :: xs
    rcases foldl_min_mem xs x with hh | hh
    · rw [hh]; exact List.mem_cons_self x xs
    · exact List.mem_cons_of_mem x hh

lemma qMin_le {l : List ℚ} {x : ℚ} (hx : x ∈ l) : qMin l ≤ x := by
  cases l with
  | nil => cases hx
  | cons y ys =>
    show ys.foldl min y ≤ x
    rcases List.mem_cons.1 hx with h | h
    · exact h ▸ foldl_min_le_init ys y
    · exact foldl_min_le_mem y h

/-! Concrete fixtures used by closed evaluations. -/

/-- Constant stand-in for `scipy.stats.pearsonr` in concrete evaluations
whose claims do not involve the correlation value. -/
def pearson0 : List ℚ → List ℚ → ℚ × ℚ := fun a b => (a.length - a.length, b.length - b.length)

/-- Row constructor for fixtures. -/
def rowMk (rtype race status : String) (conf eng : ℚ) : Row :=
  { resource_type := rtype
    age_group := "18-24"
    gender_identity := "woman"
    race_ethnicity := race
    confidence_score := conf
    engagement_score := eng
    status := status
    income_level := "middle" }

/-- A one-row analysis table. -/
def df1 : List Row := [rowMk "therapy" "white" "delivered" (1/2) (1/2)]

/-- Four-row table with race counts (3, 1). -/
def chiDf : List Row :=
  [rowMk "app" "A" "delivered" (1/2) (1/2), rowMk "app" "A" "delivered" (1/2) (1/2),
   rowMk "app" "A" "delivered" (1/2) (1/2), rowMk "app" "B" "delivered" (1/2) (1/2)]

/-- Modelled from the spec: `chi_square_independence(observed_counts)` as a
standard goodness-of-fit statistic against uniform expectation -
sum over categories of (observed - expected)^2 / expected with
expected = total / k.  Stated only to compare the source's degenerate 1 x k
contingency call against the specified test. -/
def spec_chi_square_gof (counts : List ℚ) : ℚ :=
  chi2Stat counts (counts.map (fun _ => counts.sum / (counts.length : ℚ)))

/-- C6: the disparate-impact computation yields ratio = rate_a / rate_b when
rate_b > 0 and ratio = 0 when rate_b = 0; passes_80_percent_rule holds
exactly when the ratio is at least 0.8; the ratio of a positive rate
against itself is 1 and passes the 80% rule; and every entry of the
`disparate_impact` fairness metric is built from exactly this
computation. -/
theorem disparate_impact_ratio_spec (a b r : ℚ) (hr : 0 < r) :
    (0 < b → disparateImpactRatio a b = a / b) ∧
    (b = 0 → disparateImpactRatio a b = 0) ∧
    (passes80PercentRule (disparateImpactRatio a b) = true ↔
      4/5 ≤ disparateImpactRatio a b) ∧
    disparateImpactRatio r r = 1 ∧
    passes80PercentRule (disparateImpactRatio r r) = true ∧
    (∀ (df : List Row) (l : List (String × ImpactEntry)),
      disparateImpact df = some l → ∀ p ∈ l,
        p.2.ratio = disparateImpactRatio p.2.therapy_rate p.2.white_therapy_rate ∧
        p.2.passes_80_percent_rule = passes80PercentRule p.2.ratio) := by
  have h1 : disparateImpactRatio r r = 1 := by
    rw [disparateImpactRatio, if_pos hr]
    exact div_self hr.ne'
  refine ⟨fun h => by rw [disparateImpactRatio, if_pos h],
    fun h => by simp [disparateImpactRatio, h],
    by simp [passes80PercentRule], h1, ?_, ?_⟩
  · rw [h1]
    unfold passes80PercentRule
    rw [decide_eq_true_eq]
    norm_num
  intro df l hdf p hp
  unfold disparateImpact at hdf
  split at hdf
  · cases Option.some.inj hdf
    obtain ⟨race, _, rfl⟩ := List.mem_map.1 hp
    exact ⟨rfl, rfl⟩
  · cases hdf

/-- Witness for C6: the theorem applied at rates a = 1, b = 2, r = 1/2. -/
theorem disparate_impact_ratio_spec_witness :
    disparateImpactRatio (1/2) (1/2) = 1 ∧
    passes80PercentRule (disparateImpactRatio (1/2) (1/2)) = true :=
  ⟨(disparate_impact_ratio_spec 1 2 (1/2) (by norm_num)).2.2.2.1,
   (disparate_impact_ratio_spec 1 2 (1/2) (by norm_num)).2.2.2.2.1⟩

/-- Every per-race therapy rate of `_calculate_fairness_metrics` lies in
[0, 1]: numerator rows are a sub-filter of denominator rows.  (The invariant
the real-time scorer's cohort rate breaks, see `cohort_rate_exceeds_one`.) -/
lemma groupTherapyRate_mem_unit (df : List Row) (race : String) :
    0 ≤ groupTherapyRate df race ∧ groupTherapyRate df race ≤ 1 := by
  simp only [groupTherapyRate]
  split
  · refine ⟨by positivity, ?_⟩
    refine div_le_one_of_le₀ ?_ (by positivity)
    exact_mod_cast List.length_filter_le _ _
  · norm_num

/-- User, social-determinants and recommendation fixtures: one user whose
cohort is just themself, with two therapy recommendations. -/
def c2User : DbUser :=
  { pseudonym_id := "u1", race_ethnicity := "black", age_group := "25-34" }

/-- The social-determinants record of `c2User`. -/
def c2Sdoh : DbSdoh :=
  { user_pseudonym_id := "u1", income_level := "low" }

/-- Database with one user and two therapy recommendations for that user. -/
def c2Db : Db :=
  { users := [c2User]
    sdoh := [c2Sdoh]
    recs := [{ user_pseudonym_id := "u1", resource_type := "therapy",
               confidence_score := 9/10, status := "delivered" },
             { user_pseudonym_id := "u1", resource_type := "therapy",
               confidence_score := 8/10, status := "delivered" }] }

/-- C2 (code bug): the real-time scorer's `demographic_therapy_rate` divides
a recommendation count (`similar_users`, despite its name a count of
therapy RECOMMENDATION rows of the cohort) by a user count
(`total_similar`), so one user with two therapy recommendations yields a
"rate" of 2, outside [0, 1] - the mixed-denominator defect the invariant
forbids.  The value flows into the 80%-rule comparison of the same call. -/
theorem cohort_rate_exceeds_one :
    lookupUser c2Db "u1" = some (c2User, c2Sdoh) ∧
    similarTherapyCount c2Db c2User c2Sdoh = 2 ∧
    cohortSize c2Db c2User c2Sdoh = 1 ∧
    demographicTherapyRate c2Db c2User c2Sdoh = 2 ∧
    (1 : ℚ) < demographicTherapyRate c2Db c2User c2Sdoh ∧
    detect_algorithmic_bias_realtime c2Db "u1" "therapy" 0 =
      some (.ok [] false 0) := by
  have hsim : similarTherapyCount c2Db c2User c2Sdoh = 2 := by decide
  have hcoh : cohortSize c2Db c2User c2Sdoh = 1 := by decide
  have hrate : demographicTherapyRate c2Db c2User c2Sdoh = 2 := by
    rw [demographicTherapyRate, hsim, hcoh]
    norm_num
  have hl : lookupUser c2Db "u1" = some (c2User, c2Sdoh) := by decide
  have hlen : c2Db.recs.length = 2 := by decide
  have hov : overallTherapyRate c2Db = 1 := by
    rw [overallTherapyRate, show therapyRecCount c2Db = 2 from by decide, hlen]
    norm_num
  have hti : therapyIndicator c2Db c2User c2Sdoh = some none := by
    simp only [therapyIndicator, hcoh, hov, hrate, hlen]
    norm_num
  have hcal : calibrationIndicator c2Db 0 = none := by
    rw [calibrationIndicator, if_neg (by norm_num)]
  refine ⟨hl, hsim, hcoh, hrate, by rw [hrate]; norm_num, ?_⟩
  simp only [detect_algorithmic_bias_realtime, hl, hti, hcal]
  simp [assembleResult, maxSeverity, qMax]

/-- C4 (code bug): `stats.chi2_contingency(race_counts.values.reshape(1, -1))`
is a 1 x k contingency test with 0 degrees of freedom: it returns statistic
0 and p-value 1 for EVERY input, so with race counts (3, 1) the analyzer
records statistic 0 / not significant, while the specified goodness-of-fit
test against uniform expectation gives the strictly positive statistic 1. -/
theorem chi2_degenerate_code_bug :
    chi2_contingency_1xk [3, 1] = (0, 1) ∧
    spec_chi_square_gof [3, 1] = 1 ∧
    (0 : ℚ) ≠ 1 ∧
    (analyze_resource_type_bias pearson0 chiDf "app").race_chi2 =
      some { statistic := 0, p_value := 1, significant := false } := by
  have hsum : ([3, 1] : List ℚ).sum ≠ 0 := by norm_num
  have h1 : chi2_contingency_1xk [3, 1] = (0, 1) := by
    rw [chi2_contingency_1xk, chi2Stat_contingencyExpected _ hsum]
  have hgof : spec_chi_square_gof [3, 1] = 1 := by
    simp only [spec_chi_square_gof, chi2Stat, contingencyExpected, List.map, List.zipWith,
      List.sum_cons, List.sum_nil, List.length_cons, List.length_nil]
    norm_num
  refine ⟨h1, hgof, by norm_num, ?_⟩
  have hgs : colGroups chiDf raceCol = ["A", "B"] := by decide
  have hcA : colCount chiDf raceCol "A" = 3 := by decide
  have hcB : colCount chiDf raceCol "B" = 1 := by decide
  have hcounts : (colGroups chiDf raceCol).map (fun g => (colCount chiDf raceCol g : ℚ)) =
      [3, 1] := by
    rw [hgs]
    simp [hcA, hcB]
  have hsig : decide ((1 : ℚ) < significance_level) = false := by
    rw [decide_eq_false_iff_not]
    norm_num [significance_level]
  simp only [analyze_resource_type_bias, hcounts, h1, hgs]
  norm_num [hcA, hcB, h1, significance_level]

lemma dedup_replicate_pos {α : Type} [DecidableEq α] (a : α) :
    ∀ n : ℕ, 0 < n → (List.replicate n a).dedup = [a] := by
  intro n
  induction n with
  | zero => intro hn; cases hn
  | succ m ih =>
    intro _
    rw [List.replicate_succ]
    rcases Nat.eq_zero_or_pos m with hm | hm
    · subst hm
      simp
    · rw [List.dedup_cons_of_mem (by simp [List.mem_replicate, hm.ne'])]
      exact ih hm

/-- C7: for every nonempty table and grouping column, demographic parity
reports rate = group count / table total for each observed group,
max_difference is the difference of a genuine maximum and minimum of those
rates, biased holds exactly when max_difference exceeds the fairness
threshold, and a single-group table yields max_difference = 0 and
biased = false. -/
theorem demographic_parity_spec (df : List Row) (col : Row → String) (h : df ≠ []) :
    (∀ p ∈ (demographicParity df col).rates,
        p.2 = (colCount df col p.1 : ℚ) / (df.length : ℚ) ∧ p.1 ∈ colGroups df col) ∧
    (∃ pmax ∈ (demographicParity df col).rates, ∃ pmin ∈ (demographicParity df col).rates,
        (demographicParity df col).max_difference = pmax.2 - pmin.2 ∧
        ∀ p ∈ (demographicParity df col).rates, p.2 ≤ pmax.2 ∧ pmin.2 ≤ p.2) ∧
    ((demographicParity df col).biased = true ↔
        fairness_threshold < (demographicParity df col).max_difference) ∧
    (∀ g, (∀ r ∈ df, col r = g) →
        (demographicParity df col).max_difference = 0 ∧
        (demographicParity df col).biased = false) := by
  have hrates : (demographicParity df col).rates = groupRates df col := rfl
  have hvals : ∀ p ∈ groupRates df col, p.2 ∈ (groupRates df col).map Prod.snd :=
    fun p hp => List.mem_map_of_mem Prod.snd hp
  have hgne : colGroups df col ≠ [] := by
    rw [colGroups, Ne, List.dedup_eq_nil, List.map_eq_nil_iff]
    exact h
  have hrne : groupRates df col ≠ [] := by
    rw [groupRates, Ne, List.map_eq_nil_iff]
    exact hgne
  have hvne : (groupRates df col).map Prod.snd ≠ [] := by
    rw [Ne, List.map_eq_nil_iff]
    exact hrne
  refine ⟨?_, ?_, ?_, ?_⟩
  · rw [hrates]
    intro p hp
    obtain ⟨g, hg, rfl⟩ := List.mem_map.1 hp
    exact ⟨rfl, hg⟩
  · obtain ⟨pmax, hpmax, hmax⟩ := List.mem_map.1 (qMax_mem hvne)
    obtain ⟨pmin, hpmin, hmin⟩ := List.mem_map.1 (qMin_mem hvne)
    refine ⟨pmax, hpmax, pmin, hpmin, by rw [hmax, hmin]; rfl, ?_⟩
    intro p hp
    exact ⟨hmax ▸ le_qMax (hvals p hp), hmin ▸ qMin_le (hvals p hp)⟩
  · exact decide_eq_true_iff
  · intro g hg
    have hgs : colGroups df col = [g] := by
      have hrep : df.map col = List.replicate (df.map col).length g := by
        rw [List.eq_replicate_length]
        intro b hb
        obtain ⟨r, hr, rfl⟩ := List.mem_map.1 hb
        exact hg r hr
      rw [colGroups, hrep]
      refine dedup_replicate_pos g _ ?_
      rw [List.length_map]
      exact List.length_pos.2 h
    have hv : (groupRates df col).map Prod.snd =
        [(colCount df col g : ℚ) / (df.length : ℚ)] := by
      rw [groupRates, hgs]
      rfl
    have hmd : (demographicParity df col).max_difference = 0 := by
      show qMax ((groupRates df col).map Prod.snd) - qMin ((groupRates df col).map Prod.snd) = 0
      rw [hv]
      exact sub_self _
    refine ⟨hmd, ?_⟩
    show decide (fairness_threshold <
      qMax ((groupRates df col).map Prod.snd) - qMin ((groupRates df col).map Prod.snd)) = false
    have : qMax ((groupRates df col).map Prod.snd) -
        qMin ((groupRates df col).map Prod.snd) = (0 : ℚ) := hmd
    rw [this, decide_eq_false_iff_not, fairness_threshold]
    norm_num

/-- Witness for C7: the theorem applied to the one-row single-group table
`df1`. -/
theorem demographic_parity_spec_witness :
    (demographicParity df1 raceCol).max_difference = 0 ∧
    (demographicParity df1 raceCol).biased = false := by
  refine (demographic_parity_spec df1 raceCol ?_).2.2.2 "white" ?_
  · simp [df1]
  · intro r hr
    simp only [df1, List.mem_singleton] at hr
    simp [hr, rowMk, raceCol]

/-- C1 (counterexample): on the empty window the source returns the error
marker dict of line 80; that result carries no `total_recommendations`
(and no `bias_tests`) at all, rather than a well-typed result with
total_recommendations = 0 and empty bias_tests. -/
theorem analyze_empty_counterexample :
    analyze_recommendation_bias pearson0 [] 90 [] =
      .error "No recommendations found in the specified time period" ∧
    AnalysisResult.totalRecommendations? (analyze_recommendation_bias pearson0 [] 90 []) =
      none :=
  ⟨rfl, rfl⟩

/-- C1 (amended): on an empty loaded dataset `analyze_recommendation_bias`
returns the structured marker `{'error': 'No recommendations found in the
specified time period'}` - no exception, but also no
total_recommendations/bias_tests fields. -/
theorem analyze_empty_amended (pearson : List ℚ → List ℚ → ℚ × ℚ)
    (popCounts : List (String × ℕ)) (days_back : ℤ) :
    analyze_recommendation_bias pearson popCounts days_back [] =
      .error "No recommendations found in the specified time period" :=
  rfl

/-- C3 (counterexample): a days_back of 400, outside [1, 365], is not
rejected: the analysis runs and returns the populated result recording
analysis_period_days = 400 (no InvalidConfigurationError exists in the
module; range validation exists only as HTTP query validation in the
research router). -/
theorem days_back_unvalidated_counterexample :
    (analyze_recommendation_bias pearson0 [] 400 df1).isOk = true ∧
    AnalysisResult.periodDays? (analyze_recommendation_bias pearson0 [] 400 df1) =
      some 400 ∧
    AnalysisResult.totalRecommendations? (analyze_recommendation_bias pearson0 [] 400 df1) =
      some 1 :=
  ⟨rfl, rfl, rfl⟩

/-- C3 (amended): `analyze_recommendation_bias` performs no validation of
days_back: for every days_back value and nonempty window the analysis
proceeds to the populated result, recording the period as given. -/
theorem days_back_unvalidated (pearson : List ℚ → List ℚ → ℚ × ℚ)
    (popCounts : List (String × ℕ)) (d : ℤ) (df : List Row) (h : df ≠ []) :
    (analyze_recommendation_bias pearson popCounts d df).isOk = true ∧
    AnalysisResult.periodDays? (analyze_recommendation_bias pearson popCounts d df) =
      some d ∧
    AnalysisResult.totalRecommendations? (analyze_recommendation_bias pearson popCounts d df) =
      some df.length := by
  have hne : df.isEmpty = false := by
    cases df with
    | nil => exact absurd rfl h
    | cons a l => rfl
  rw [analyze_recommendation_bias, hne]
  exact ⟨rfl, rfl, rfl⟩

/-- Witness for C3's amended theorem: applied at days_back = 500 on the
one-row table. -/
theorem days_back_unvalidated_witness :
    (analyze_recommendation_bias pearson0 [] 500 df1).isOk = true ∧
    AnalysisResult.periodDays? (analyze_recommendation_bias pearson0 [] 500 df1) =
      some 500 ∧
    AnalysisResult.totalRecommendations? (analyze_recommendation_bias pearson0 [] 500 df1) =
      some df1.length :=
  days_back_unvalidated pearson0 [] 500 df1 (by simp [df1])

/-- Modelled from the claim's words, for comparison with the source: the
max - min of the success rates over ALL observed race groups (every
observed group has nonzero total), including groups with zero successes. -/
def claimedEqOddsMaxDiff (df : List Row) : ℚ :=
  qMax ((colGroups df raceCol).map
    (fun g => (successCount df g : ℚ) / (colCount df raceCol g : ℚ))) -
  qMin ((colGroups df raceCol).map
    (fun g => (successCount df g : ℚ) / (colCount df raceCol g : ℚ)))

/-- Three rows: race A twice (one engaged), race B once (never successful). -/
def eqCxDf : List Row :=
  [rowMk "app" "A" "engaged" 0 0, rowMk "app" "A" "delivered" 0 0,
   rowMk "app" "B" "delivered" 0 0]

/-- C8 (counterexample): race B has nonzero total (1 row) and zero
successes; its rate 0 is reported in success_rates yet pandas' NaN-skipping
max/min EXCLUDES it, so the source reports max_difference = 0 where the
claim's max - min over all nonzero-total groups is 1/2. -/
theorem equalized_odds_counterexample :
    (equalizedOdds eqCxDf).map EqOddsEntry.max_difference = some 0 ∧
    (equalizedOdds eqCxDf).map EqOddsEntry.success_rates =
      some [("A", 1/2), ("B", 0)] ∧
    claimedEqOddsMaxDiff eqCxDf = 1/2 ∧
    (0 : ℚ) ≠ 1/2 := by
  have hgs : colGroups eqCxDf raceCol = ["A", "B"] := by decide
  have hfil : (colGroups eqCxDf raceCol).filter (fun g => 0 < successCount eqCxDf g) =
      ["A"] := by decide
  have hsA : successCount eqCxDf "A" = 1 := by decide
  have hsB : successCount eqCxDf "B" = 0 := by decide
  have hcA : colCount eqCxDf raceCol "A" = 2 := by decide
  have hcB : colCount eqCxDf raceCol "B" = 1 := by decide
  have hne : ¬ (eqCxDf.filter (fun r => isSuccess r)).length = 0 := by decide
  have hcmp : eqOddsComparedRates eqCxDf = [1/2] := by
    rw [eqOddsComparedRates, hfil, List.map_cons, List.map_nil, hsA, hcA]
    norm_num
  have he : equalizedOdds eqCxDf = some
      { success_rates := (colGroups eqCxDf raceCol).map
          (fun g => (g, (successCount eqCxDf g : ℚ) / (colCount eqCxDf raceCol g : ℚ)))
        max_difference := if 1 < (colGroups eqCxDf raceCol).length then
          qMax (eqOddsComparedRates eqCxDf) - qMin (eqOddsComparedRates eqCxDf) else 0
        biased := decide (1 < (colGroups eqCxDf raceCol).length ∧
          fairness_threshold <
            qMax (eqOddsComparedRates eqCxDf) - qMin (eqOddsComparedRates eqCxDf)) } := by
    simp only [equalizedOdds]
    rw [if_neg hne]
  refine ⟨?_, ?_, ?_, by norm_num⟩
  · rw [he]
    simp only [Option.map_some, hgs, hcmp]
    norm_num [qMax, qMin]
  · rw [he]
    simp only [Option.map_some, hgs, List.map_cons, List.map_nil, hsA, hsB, hcA, hcB]
    norm_num
  · rw [claimedEqOddsMaxDiff, hgs, List.map_cons, List.map_cons, List.map_nil,
      hsA, hsB, hcA, hcB]
    simp only [qMax, qMin, List.foldl]
    rw [Nat.cast_zero, zero_div]
    rw [max_eq_left (by positivity), min_eq_right (by positivity)]
    norm_num

/-- C8 (amended): when at least one row is successful, equalized odds
reports, for every observed race group, rate = success_count/group_total in
success_rates (0 for zero-success groups); max_difference is max - min
taken over the rates of groups WITH at least one success (zero-success
groups are excluded from the comparison, zero-total groups do not occur);
with at most one observed group max_difference = 0; and biased holds
exactly when more than one group is observed and the compared difference
exceeds the fairness threshold. -/
theorem equalized_odds_amended (df : List Row)
    (h : (df.filter (fun r => isSuccess r)).length ≠ 0) :
    ∃ e, equalizedOdds df = some e ∧
      (∀ g ∈ colGroups df raceCol,
        (g, (successCount df g : ℚ) / (colCount df raceCol g : ℚ)) ∈ e.success_rates) ∧
      (1 < (colGroups df raceCol).length →
        e.max_difference = qMax (eqOddsComparedRates df) - qMin (eqOddsComparedRates df)) ∧
      ((colGroups df raceCol).length ≤ 1 → e.max_difference = 0) ∧
      (e.biased = true ↔ 1 < (colGroups df raceCol).length ∧
        fairness_threshold < qMax (eqOddsComparedRates df) - qMin (eqOddsComparedRates df)) ∧
      (∀ q ∈ eqOddsComparedRates df, ∃ g ∈ colGroups df raceCol,
        0 < successCount df g ∧
        q = (successCount df g : ℚ) / (colCount df raceCol g : ℚ)) := by
  refine ⟨_, by simp only [equalizedOdds]; rw [if_neg h], ?_, ?_, ?_, ?_, ?_⟩
  · intro g hg
    exact List.mem_map_of_mem _ hg
  · intro hlt
    exact if_pos hlt
  · intro hle
    exact if_neg (not_lt.2 hle)
  · exact decide_eq_true_iff
  · intro q hq
    obtain ⟨g, hgf, rfl⟩ := List.mem_map.1 hq
    obtain ⟨hgm, hgp⟩ := List.mem_filter.1 hgf
    exact ⟨g, hgm, of_decide_eq_true hgp, rfl⟩

/-- The spec's equalized-odds scenario: 100 recommendations, 60 to group A
with success rate 0.5 and 40 to group B with success rate 0.9. -/
def scenarioDf : List Row :=
  List.replicate 30 (rowMk "app" "A" "completed" 0 0) ++
  List.replicate 30 (rowMk "app" "A" "delivered" 0 0) ++
  List.replicate 36 (rowMk "app" "B" "completed" 0 0) ++
  List.replicate 4 (rowMk "app" "B" "delivered" 0 0)

set_option maxRecDepth 8000 in
/-- Witness for C8's amended theorem: on the spec's 100-row scenario it
yields max_difference = 0.4 and biased = true at fairness threshold 0.1. -/
theorem equalized_odds_amended_witness :
    ∃ e, equalizedOdds scenarioDf = some e ∧
      e.max_difference = 2/5 ∧ e.biased = true := by
  obtain ⟨e, he, hmem, hlt, hle1, hbias, hch⟩ :=
    equalized_odds_amended scenarioDf (by decide)
  have hglen : (colGroups scenarioDf raceCol).length = 2 := by decide
  have hfil : (colGroups scenarioDf raceCol).filter
      (fun g => 0 < successCount scenarioDf g) = ["A", "B"] := by decide
  have hsA : successCount scenarioDf "A" = 30 := by decide
  have hsB : successCount scenarioDf "B" = 36 := by decide
  have hcA : colCount scenarioDf raceCol "A" = 60 := by decide
  have hcB : colCount scenarioDf raceCol "B" = 40 := by decide
  have hcmp : eqOddsComparedRates scenarioDf = [1/2, 9/10] := by
    rw [eqOddsComparedRates, hfil, List.map_cons, List.map_cons, List.map_nil,
      hsA, hsB, hcA, hcB]
    norm_num
  have hdiff : qMax (eqOddsComparedRates scenarioDf) -
      qMin (eqOddsComparedRates scenarioDf) = 2/5 := by
    rw [hcmp]
    simp only [qMax, qMin, List.foldl]
    rw [max_eq_right (by norm_num), min_eq_left (by norm_num)]
    norm_num
  refine ⟨e, he, ?_, ?_⟩
  · rw [hlt (by rw [hglen]; norm_num), hdiff]
  · refine hbias.2 ⟨by rw [hglen]; norm_num, ?_⟩
    rw [hdiff, fairness_threshold]
    norm_num

/-- C9: given a successful user lookup, (i) a zero-population cohort skips
the therapy-underrepresentation check entirely - no indicator, no division,
no failure even on an empty recommendation table (for any database and
pair); (ii) with a nonempty cohort and positive overall therapy rate, the
indicator is emitted exactly when cohort_rate / overall_rate < 0.8, with
severity 1 - ratio; and (iii) the call's result is assembled from exactly
that therapy indicator (plus the calibration indicator). -/
theorem realtime_therapy_spec (db : Db) (uid : String) (conf : ℚ) (u : DbUser)
    (s : DbSdoh) (h : lookupUser db uid = some (u, s)) :
    (∀ (db' : Db) (u' : DbUser) (s' : DbSdoh), cohortSize db' u' s' = 0 →
        therapyIndicator db' u' s' = some none) ∧
    (0 < cohortSize db u s → 0 < overallTherapyRate db →
        therapyIndicator db u s =
          some (if demographicTherapyRate db u s / overallTherapyRate db < 4/5 then
                  some ("therapy_underrepresentation",
                        1 - demographicTherapyRate db u s / overallTherapyRate db)
                else none)) ∧
    detect_algorithmic_bias_realtime db uid "therapy" conf =
      (therapyIndicator db u s).map (fun t =>
        assembleResult (t.toList ++ (calibrationIndicator db conf).toList)) := by
  refine ⟨?_, ?_, ?_⟩
  · intro db' u' s' hz
    rw [therapyIndicator, if_neg (by rw [hz]; exact lt_irrefl 0)]
  · intro hc hov
    have hrecs : ¬ db.recs.length = 0 := by
      intro h0
      rw [overallTherapyRate, h0, Nat.cast_zero, div_zero] at hov
      exact lt_irrefl 0 hov
    rw [therapyIndicator, if_pos hc, if_neg hrecs, if_pos hov]
  · simp only [detect_algorithmic_bias_realtime, h, if_true]
    cases therapyIndicator db u s with
    | none => rfl
    | some t => rfl

/-- A database with a single user and no recommendations. -/
def u1 : DbUser :=
  { pseudonym_id := "u1", race_ethnicity := "white", age_group := "18-24" }

/-- The social-determinants record of `u1`. -/
def s1 : DbSdoh :=
  { user_pseudonym_id := "u1", income_level := "middle" }

/-- One user, their social determinants, no recommendations. -/
def db9 : Db := { users := [u1], sdoh := [s1], recs := [] }

/-- A user outside `db9` - their (race, income) cohort in `db9` is empty. -/
def uX : DbUser :=
  { pseudonym_id := "ux", race_ethnicity := "asian", age_group := "18-24" }

/-- Social determinants of `uX`. -/
def sX : DbSdoh :=
  { user_pseudonym_id := "ux", income_level := "high" }

/-- Witness for C9: the zero-cohort clause applied at a concrete empty
cohort - the check is skipped (and no division happens even though the
recommendation table is empty). -/
theorem realtime_therapy_spec_witness :
    cohortSize db9 uX sX = 0 ∧ therapyIndicator db9 uX sX = some none :=
  ⟨by decide,
   (realtime_therapy_spec db9 "u1" 0 u1 s1 (by decide)).1 db9 uX sX (by decide)⟩

/-- Inversion helper for the real-time result: every populated result was
assembled by `assembleResult`, so its flag and severity are determined by
its indicator list. -/
lemma detect_ok_inv {db : Db} {uid rtype : String} {conf : ℚ}
    {inds : List (String × ℚ)} {b : Bool} {m : ℚ}
    (h : detect_algorithmic_bias_realtime db uid rtype conf = some (.ok inds b m)) :
    b = decide (0 < inds.length) ∧ m = maxSeverity inds := by
  cases hl : lookupUser db uid with
  | none =>
    simp only [detect_algorithmic_bias_realtime, hl] at h
    cases h
  | some p =>
    obtain ⟨u, s⟩ := p
    simp only [detect_algorithmic_bias_realtime, hl] at h
    cases hti : (if rtype = "therapy" then therapyIndicator db u s else some none) with
    | none =>
      rw [hti] at h
      cases h
    | some t =>
      rw [hti] at h
      have h2 := Option.some.inj h
      rw [assembleResult] at h2
      injection h2 with e1 e2 e3
      cases e1
      exact ⟨e2.symm, e3.symm⟩

/-- C10: an unknown user yields the error marker `{'error': 'User not
found'}` before any cohort or calibration computation; and every populated
result satisfies bias_detected = true iff some indicator was emitted, with
max_severity the exact maximum of the emitted severities (0 when none). -/
theorem realtime_result_spec (db : Db) (uid rtype : String) (conf : ℚ) :
    (lookupUser db uid = none →
      detect_algorithmic_bias_realtime db uid rtype conf =
        some (.err "User not found")) ∧
    (∀ inds b m, detect_algorithmic_bias_realtime db uid rtype conf =
        some (.ok inds b m) →
      (b = true ↔ inds ≠ []) ∧
      (inds = [] → m = 0) ∧
      (∀ p ∈ inds, p.2 ≤ m) ∧
      (inds ≠ [] → ∃ p ∈ inds, p.2 = m)) := by
  constructor
  · intro h
    simp only [detect_algorithmic_bias_realtime, h]
  · intro inds b m hok
    obtain ⟨hb, hm⟩ := detect_ok_inv hok
    refine ⟨?_, ?_, ?_, ?_⟩
    · rw [hb, decide_eq_true_iff]
      exact ⟨fun hlen => List.length_pos.1 hlen, fun hne => List.length_pos.2 hne⟩
    · intro he
      rw [hm, he]
      rfl
    · intro p hp
      rw [hm]
      exact le_qMax (List.mem_map_of_mem Prod.snd hp)
    · intro hne
      have hmapne : inds.map Prod.snd ≠ [] := by
        rw [Ne, List.map_eq_nil_iff]
        exact hne
      obtain ⟨p, hp, hpe⟩ := List.mem_map.1 (qMax_mem hmapne)
      exact ⟨p, hp, by rw [hm, maxSeverity, hpe]⟩

/-- Witness for C10: the error clause applied to a user id absent from the
database. -/
theorem realtime_result_spec_witness :
    detect_algorithmic_bias_realtime db9 "nobody" "therapy" 0 =
      some (.err "User not found") :=
  (realtime_result_spec db9 "nobody" "therapy" 0).1 (by decide)

/-- Each confidence score of the table falls in the equal-width right-closed
bin `pd.cut` assigns it: bins span the OBSERVED range [mn, mx] in five
widths (mx - mn)/5, the minimum landing in bin 0. -/
lemma binIdx_mem_bin {mn mx x : ℚ} (hlt : mn < mx) (hle : mn ≤ x) (hxe : x ≤ mx) :
    binIdx mn mx x < 5 ∧
    x ≤ mn + ((binIdx mn mx x : ℚ) + 1) * ((mx - mn) / 5) ∧
    (binIdx mn mx x = 0 ∨ mn + (binIdx mn mx x : ℚ) * ((mx - mn) / 5) < x) := by
  have hd : (0:ℚ) < mx - mn := sub_pos.2 hlt
  set q : ℚ := (x - mn) * 5 / (mx - mn) with hqdef
  have hq0 : 0 ≤ q := div_nonneg (mul_nonneg (sub_nonneg.2 hle) (by norm_num)) hd.le
  have hq5 : q ≤ 5 := by
    rw [hqdef, div_le_iff₀ hd]
    nlinarith
  have hc0 : (0:ℤ) ≤ ⌈q⌉ := Int.ceil_nonneg hq0
  have hc5 : ⌈q⌉ ≤ 5 := by
    refine Int.ceil_le.2 ?_
    push_cast
    exact hq5
  have hbin : binIdx mn mx x = (min 4 (max 0 (⌈q⌉ - 1))).toNat := by
    rw [hqdef]
    simp only [binIdx, if_neg (not_le.2 hlt)]
  rcases le_or_lt ⌈q⌉ 0 with hcle | hcpos
  · have hq00 : q = 0 := by
      refine le_antisymm ?_ hq0
      calc q ≤ (⌈q⌉ : ℚ) := Int.le_ceil q
        _ ≤ 0 := by exact_mod_cast hcle
    have hx : x = mn := by
      rcases div_eq_zero_iff.1 hq00 with h0 | h0
      · rcases mul_eq_zero.1 h0 with h1 | h1
        · exact sub_eq_zero.1 h1
        · norm_num at h1
      · exact absurd h0 hd.ne'
    have hbe : binIdx mn mx x = 0 := by
      rw [hbin, max_eq_left (by omega : ⌈q⌉ - 1 ≤ 0)]
      decide
    have hpos : 0 < (mx - mn) / 5 := by positivity
    refine ⟨by rw [hbe]; norm_num, ?_, Or.inl hbe⟩
    rw [hbe, hx]
    push_cast
    linarith
  · have h1 : max 0 (⌈q⌉ - 1) = ⌈q⌉ - 1 := max_eq_right (by omega)
    have h2 : min 4 (⌈q⌉ - 1) = ⌈q⌉ - 1 := min_eq_right (by omega)
    have hbe : ((binIdx mn mx x : ℕ) : ℤ) = ⌈q⌉ - 1 := by
      rw [hbin, h1, h2, Int.toNat_of_nonneg (by omega)]
    have hbq : ((binIdx mn mx x : ℕ) : ℚ) = (⌈q⌉ : ℚ) - 1 := by
      exact_mod_cast hbe
    refine ⟨by omega, ?_, Or.inr ?_⟩
    · have hqc : q ≤ (⌈q⌉ : ℚ) := Int.le_ceil q
      rw [hqdef, div_le_iff₀ hd] at hqc
      have hcast : ((⌈q⌉ : ℚ)) = ((binIdx mn mx x : ℕ) : ℚ) + 1 := by
        rw [hbq]
        ring
      rw [hcast] at hqc
      nlinarith
    · have hql : (⌈q⌉ : ℚ) - 1 < q := by
        have := Int.ceil_lt_add_one q
        linarith
      rw [hqdef, lt_div_iff₀ hd] at hql
      rw [← hbq] at hql
      nlinarith

/-- Twenty identical rows: exactly the spec's minimum calibration sample
size. -/
def calib20Df : List Row := List.replicate 20 (rowMk "app" "A" "delivered" 0 0)

/-- Twenty-one identical rows: just over the source's `len(df) > 20` guard. -/
def calib21Df : List Row := List.replicate 21 (rowMk "app" "A" "delivered" 0 0)

/-- C5 (counterexample): a dataset of exactly 20 rows - which the claim says
must have calibration attempted - is skipped by the source's strict
`len(df) > 20` guard, and the skip leaves the calibration block empty
rather than marking insufficient_data. -/
theorem calibration_at_20_counterexample :
    calib20Df.length = 20 ∧
    calibrationAnalysis (fun a b => ((1 : ℚ), (0 : ℚ))) calib20Df = none := by
  refine ⟨rfl, ?_⟩
  simp only [calibrationAnalysis]
  rw [if_neg (by decide : ¬ 20 < calib20Df.length)]

/-- C5 (amended): calibration runs only for strictly more than 20 rows
(at 20 rows or fewer it is skipped, leaving the calibration block empty -
there is no insufficient_data marker); when run, the Pearson correlation of
the per-bin mean confidence against mean engagement is taken only when more
than 2 of the 5 bins are nonempty, with well_calibrated exactly when
correlation > 0.5 and p < 0.05; and the bins are five equal-width buckets
over the OBSERVED confidence range, not over [0, 1]. -/
theorem calibration_amended (pearson : List ℚ → List ℚ → ℚ × ℚ) (df : List Row)
    (h : 20 < df.length) :
    (∀ df' : List Row, df'.length ≤ 20 → calibrationAnalysis pearson df' = none) ∧
    ((calibrationBins df).length ≤ 2 → calibrationAnalysis pearson df = none) ∧
    (2 < (calibrationBins df).length →
      calibrationAnalysis pearson df =
        some { correlation := (pearson (confMeans df) (engMeans df)).1
               p_value := (pearson (confMeans df) (engMeans df)).2
               well_calibrated := decide
                 (1/2 < (pearson (confMeans df) (engMeans df)).1 ∧
                  (pearson (confMeans df) (engMeans df)).2 < significance_level) }) ∧
    (∀ r ∈ df, confMin df < confMax df →
      binIdx (confMin df) (confMax df) r.confidence_score < 5 ∧
      r.confidence_score ≤ confMin df +
        ((binIdx (confMin df) (confMax df) r.confidence_score : ℚ) + 1) *
          ((confMax df - confMin df) / 5) ∧
      (binIdx (confMin df) (confMax df) r.confidence_score = 0 ∨
        confMin df + (binIdx (confMin df) (confMax df) r.confidence_score : ℚ) *
          ((confMax df - confMin df) / 5) < r.confidence_score)) := by
  refine ⟨?_, ?_, ?_, ?_⟩
  · intro df' hle
    simp only [calibrationAnalysis]
    rw [if_neg (not_lt.2 hle)]
  · intro hb
    simp only [calibrationAnalysis]
    rw [if_pos h, if_neg (not_lt.2 hb)]
  · intro hb
    simp only [calibrationAnalysis]
    rw [if_pos h, if_pos hb]
  · intro r hr hlt
    exact binIdx_mem_bin hlt
      (qMin_le (List.mem_map_of_mem (fun t => t.confidence_score) hr))
      (le_qMax (List.mem_map_of_mem (fun t => t.confidence_score) hr))

/-- Witness for C5's amended theorem: the skip clause applied at the 20-row
table (hypothesis discharged with the 21-row table). -/
theorem calibration_amended_witness :
    calibrationAnalysis pearson0 calib20Df = none :=
  (calibration_amended pearson0 calib21Df (by decide)).1 calib20Df (by decide)

end BiasDetection
